import Mathlib

/-!
Shallow embedding of the volume operation executor
(`pkg/volume/util/operationexecutor/operation_executor.go`) and of the
pending-operation registry (`nestedpendingoperations`) it submits to.

The executor source is translated directly.  The registry itself is not part
of the excerpt (only its caller is), so its `Run` admission rule is modelled
from the specification.  Tasks (the closures produced by the operation
generator) are opaque data: the executor never runs them, it only submits
them, so the embedding records submissions and registry state.
-/

namespace OperationExecutorModel

/-- `v1.UniqueVolumeName`: opaque unique volume identifier. -/
abbrev UniqueVolumeName := String

/-- `volumetypes.UniquePodName`: opaque unique pod identifier. -/
abbrev UniquePodName := String

/-- Opaque task produced by the operation generator.  The executor treats the
generated function as data (it only hands it to the registry), so a bare
identifier is enough.  `Option` reflects that the Go function value may be
nil. -/
abbrev Task := Nat

/-- Errors returned by the generator (Go `error`), kept as plain messages. -/
abbrev GenError := String

/-- `nestedpendingoperations.EmptyUniquePodName`. -/
def EmptyUniquePodName : UniquePodName := ""

/-- The empty `v1.UniqueVolumeName` sentinel used by the lock-free
verification path. -/
def EmptyUniqueVolumeName : UniqueVolumeName := ""

/-! ### String containment (Go `strings.Contains`) -/

/-- Whether the first character list occurs at the start of the second. -/
def startsWithChars : List Char → List Char → Bool
  | [], _ => true
  | _ :: _, [] => false
  | p :: ps, c :: cs => p == c && startsWithChars ps cs

/-- Whether the first character list occurs somewhere inside the second. -/
def containsChars (pat : List Char) : List Char → Bool
  | [] => startsWithChars pat []
  | c :: cs => startsWithChars pat (c :: cs) || containsChars pat cs

/-- Go `strings.Contains s substr`: reports whether `substr` is within `s`. -/
def stringContains (s substr : String) : Bool :=
  containsChars substr.data s.data

/-- `hasMountRefs` from `operation_executor.go`: counts the mount references
that do not textually contain the mount path, and reports whether that count
is positive. -/
def hasMountRefs (mountPath : String) (mountRefs : List String) : Bool :=
  let count := mountRefs.foldl
    (fun count ref => if !stringContains ref mountPath then count + 1 else count) 0
  decide (count > 0)

/-! ### Data model -/

/-- `volume.Spec`: plugin-specific volume configuration; only its name is
observable here (`spec.Name()`). -/
structure VolumeSpec where
  Name : String
deriving DecidableEq, Repr

/-- `v1.Pod`, reduced to the identity fields a unique pod name derives from. -/
structure Pod where
  Namespace : String
  Name : String
  UID : String
deriving DecidableEq, Repr

/-- `volume.VolumePlugin` as consumed here: its name and its bulk-verification
capability. -/
structure VolumePlugin where
  GetPluginName : String
  SupportsBulkVolumeVerification : Bool
deriving DecidableEq, Repr

/-- `volume.VolumePluginMgr` as consumed here: plugin resolution.  `none`
covers both a lookup error and a nil plugin (the source treats
`err != nil || volumePlugin == nil` identically). -/
structure VolumePluginMgr where
  FindPluginBySpec : VolumeSpec → Option VolumePlugin

/-- `VolumeToAttach` (identity fields; `VolumeSpec` is a nilable pointer). -/
structure VolumeToAttach where
  VolumeName : UniqueVolumeName
  VolumeSpec : Option VolumeSpec
  NodeName : String
  ScheduledPods : List Pod
deriving DecidableEq, Repr

/-- `VolumeToMount` (fields used by the executor). -/
structure VolumeToMount where
  VolumeName : UniqueVolumeName
  PodName : UniquePodName
  VolumeSpec : Option VolumeSpec
  OuterVolumeSpecName : String
  Pod : Pod
  PluginIsAttachable : Bool
  VolumeGidValue : String
  DevicePath : String
  ReportedInUse : Bool
deriving DecidableEq, Repr

/-- `AttachedVolume`. -/
structure AttachedVolume where
  VolumeName : UniqueVolumeName
  VolumeSpec : Option VolumeSpec
  NodeName : String
  PluginIsAttachable : Bool
  DevicePath : String
deriving DecidableEq, Repr

/-- `MountedVolume` (fields used by the executor; the `Mounter` interface is
opaque and unused by the control flow embedded here). -/
structure MountedVolume where
  PodName : UniquePodName
  VolumeName : UniqueVolumeName
  InnerVolumeSpecName : String
  OuterVolumeSpecName : String
  PluginName : String
  PodUID : String
  VolumeGidValue : String
deriving DecidableEq, Repr

/-- Modelled from the spec: `volumehelper.GetUniquePodName` (not in the
excerpt) derives an opaque unique pod name from a pod's identity
(namespace/name/UID); the UID is already unique, so it serves as the derived
name. -/
def GetUniquePodName (pod : Pod) : UniquePodName := pod.UID

/-! ### Pending-operation registry (spec-modelled) -/

/-- Composite identity under which the registry tracks an operation. -/
structure OperationKey where
  volumeName : UniqueVolumeName
  podName : UniquePodName
deriving DecidableEq, Repr

/-- Modelled from the spec: the `nestedpendingoperations` conflict rule.  Two
submissions conflict if they share the same VolumeIdentifier and either
PodIdentifier is empty or both are equal — except that the empty
VolumeIdentifier is an always-unique sentinel that never conflicts. -/
def operationKeysConflict (k1 k2 : OperationKey) : Bool :=
  k1.volumeName == k2.volumeName &&
  k2.volumeName != EmptyUniqueVolumeName &&
  (k1.podName == EmptyUniquePodName || k2.podName == EmptyUniquePodName ||
    k1.podName == k2.podName)

/-- Modelled from the spec: a registry entry for one submitted operation.  The
`running` flag is the operation-in-progress flag used to reject concurrent
submissions; the submitted task is kept as data (it is never executed by the
embedding). -/
structure PendingOperation where
  key : OperationKey
  running : Bool
  task : Option Task
deriving DecidableEq, Repr

/-- Modelled from the spec: the `nestedpendingoperations` registry state — the
collection of pending operations (the internal key → entry map). -/
structure NestedPendingOperations where
  operations : List PendingOperation
deriving DecidableEq, Repr

/-- Errors surfaced synchronously by a verb call: the generator's own error,
or the registry's `OperationAlreadyExistsError` admission rejection. -/
inductive OpError where
  | generationFailed (msg : GenError)
  | operationAlreadyExists (volumeName : UniqueVolumeName) (podName : UniquePodName)
deriving DecidableEq, Repr

/-- Modelled from the spec: `NestedPendingOperations.Run`.  Fails immediately
with `OperationAlreadyExistsError` if an operation whose key conflicts with
the submitted key is already running (fail-fast, no blocking or queuing);
otherwise records the task as running and returns with no error.  Completion
and backoff bookkeeping are outside the submitted-but-never-completed window
this embedding covers. -/
def NestedPendingOperations.Run (grm : NestedPendingOperations)
    (volumeName : UniqueVolumeName) (podName : UniquePodName) (task : Option Task) :
    NestedPendingOperations × Option OpError :=
  if grm.operations.any (fun op =>
      op.running && operationKeysConflict op.key ⟨volumeName, podName⟩) then
    (grm, some (.operationAlreadyExists volumeName podName))
  else
    (⟨⟨⟨volumeName, podName⟩, true, task⟩ :: grm.operations⟩, none)

/-- Modelled from the spec: non-blocking inspection of whether an operation
conflicting with the given key is currently running. -/
def NestedPendingOperations.IsOperationPending (grm : NestedPendingOperations)
    (volumeName : UniqueVolumeName) (podName : UniquePodName) : Bool :=
  grm.operations.any (fun op =>
    op.running && operationKeysConflict op.key ⟨volumeName, podName⟩)

/-- The registry invariant: no two running entries have conflicting keys, so
for every key at most one associated task is running. -/
def mutualExclusionInv (grm : NestedPendingOperations) : Prop :=
  grm.operations.Pairwise fun op1 op2 =>
    op1.running = true → op2.running = true →
      operationKeysConflict op1.key op2.key = false

/-! ### Operation generator and executor -/

/-- `OperationGenerator` as consumed by the executor: each generation method
returns a (possibly nil) task together with a possible error, matching the Go
pair `(func() error, error)`.  The `actualStateOfWorld` (and, for
`GenerateUnmountDeviceFunc`, the `mounter`) arguments are opaque collaborator
interfaces that are captured inside the generated task, so they do not appear
in the embedding. -/
structure OperationGenerator where
  GenerateAttachVolumeFunc : VolumeToAttach → Option Task × Option GenError
  GenerateDetachVolumeFunc : AttachedVolume → Bool → Option Task × Option GenError
  GenerateMountVolumeFunc : Nat → VolumeToMount → Option Task × Option GenError
  GenerateUnmountVolumeFunc : MountedVolume → Option Task × Option GenError
  GenerateUnmountDeviceFunc : AttachedVolume → Option Task × Option GenError
  GenerateVerifyControllerAttachedVolumeFunc :
    VolumeToMount → String → Option Task × Option GenError
  GenerateVolumesAreAttachedFunc :
    List AttachedVolume → String → Option Task × Option GenError
  GenerateBulkVolumeVerifyFunc :
    List (String × List VolumeSpec) → String → List (VolumeSpec × UniqueVolumeName) →
      Option Task × Option GenError
  GetVolumePluginMgr : VolumePluginMgr

/-- The `operationExecutor` struct: the pending-operation registry plus the
operation generator. -/
structure operationExecutor where
  pendingOperations : NestedPendingOperations
  operationGenerator : OperationGenerator

/-- Submits to the registry and threads the updated registry back into the
executor, returning the registry's immediate accept/reject result. -/
def operationExecutor.submit (oe : operationExecutor)
    (volumeName : UniqueVolumeName) (podName : UniquePodName) (task : Option Task) :
    operationExecutor × Option OpError :=
  let r := oe.pendingOperations.Run volumeName podName task
  (⟨r.1, oe.operationGenerator⟩, r.2)

/-- `IsOperationPending` on the executor: delegates to the registry. -/
def operationExecutor.IsOperationPending (oe : operationExecutor)
    (volumeName : UniqueVolumeName) (podName : UniquePodName) : Bool :=
  oe.pendingOperations.IsOperationPending volumeName podName

/-- `AttachVolume`: generate the attach task; on generation error return it,
otherwise submit under `(volumeToAttach.VolumeName, "")`. -/
def operationExecutor.AttachVolume (oe : operationExecutor)
    (volumeToAttach : VolumeToAttach) : operationExecutor × Option OpError :=
  match oe.operationGenerator.GenerateAttachVolumeFunc volumeToAttach with
  | (_, some err) => (oe, some (.generationFailed err))
  | (attachFunc, none) =>
      oe.submit volumeToAttach.VolumeName EmptyUniquePodName attachFunc

/-- `DetachVolume`: generate the detach task; on generation error return it,
otherwise submit under `(volumeToDetach.VolumeName, "")`. -/
def operationExecutor.DetachVolume (oe : operationExecutor)
    (volumeToDetach : AttachedVolume) (verifySafeToDetach : Bool) :
    operationExecutor × Option OpError :=
  match oe.operationGenerator.GenerateDetachVolumeFunc volumeToDetach verifySafeToDetach with
  | (_, some err) => (oe, some (.generationFailed err))
  | (detachFunc, none) =>
      oe.submit volumeToDetach.VolumeName EmptyUniquePodName detachFunc

/-- `MountVolume`: generate the mount task; the pod key is empty when the
plugin is attachable and the unique pod name of `volumeToMount.Pod`
otherwise. -/
def operationExecutor.MountVolume (oe : operationExecutor)
    (waitForAttachTimeout : Nat) (volumeToMount : VolumeToMount) :
    operationExecutor × Option OpError :=
  match oe.operationGenerator.GenerateMountVolumeFunc waitForAttachTimeout volumeToMount with
  | (_, some err) => (oe, some (.generationFailed err))
  | (mountFunc, none) =>
      let podName := if !volumeToMount.PluginIsAttachable then
          GetUniquePodName volumeToMount.Pod
        else EmptyUniquePodName
      oe.submit volumeToMount.VolumeName podName mountFunc

/-- `UnmountVolume`: generate the unmount task; the pod key is always derived
from `volumeToUnmount.PodUID`. -/
def operationExecutor.UnmountVolume (oe : operationExecutor)
    (volumeToUnmount : MountedVolume) : operationExecutor × Option OpError :=
  match oe.operationGenerator.GenerateUnmountVolumeFunc volumeToUnmount with
  | (_, some err) => (oe, some (.generationFailed err))
  | (unmountFunc, none) =>
      let podName : UniquePodName := volumeToUnmount.PodUID
      oe.submit volumeToUnmount.VolumeName podName unmountFunc

/-- `UnmountDevice`: generate the device-unmount task; on generation error
return it, otherwise submit under `(deviceToDetach.VolumeName, "")`. -/
def operationExecutor.UnmountDevice (oe : operationExecutor)
    (deviceToDetach : AttachedVolume) : operationExecutor × Option OpError :=
  match oe.operationGenerator.GenerateUnmountDeviceFunc deviceToDetach with
  | (_, some err) => (oe, some (.generationFailed err))
  | (unmountDeviceFunc, none) =>
      oe.submit deviceToDetach.VolumeName EmptyUniquePodName unmountDeviceFunc

/-- `VerifyControllerAttachedVolume`: generate the verification task; on
generation error return it, otherwise submit under
`(volumeToMount.VolumeName, "")`. -/
def operationExecutor.VerifyControllerAttachedVolume (oe : operationExecutor)
    (volumeToMount : VolumeToMount) (nodeName : String) :
    operationExecutor × Option OpError :=
  match oe.operationGenerator.GenerateVerifyControllerAttachedVolumeFunc
      volumeToMount nodeName with
  | (_, some err) => (oe, some (.generationFailed err))
  | (verifyFunc, none) =>
      oe.submit volumeToMount.VolumeName EmptyUniquePodName verifyFunc

/-- `VerifyVolumesAreAttachedPerNode`: generate the per-node verification
task; on generation error return it, otherwise submit under the empty
`UniqueVolumeName` (and empty pod name) so the operation can execute
concurrently. -/
def operationExecutor.VerifyVolumesAreAttachedPerNode (oe : operationExecutor)
    (attachedVolumes : List AttachedVolume) (nodeName : String) :
    operationExecutor × Option OpError :=
  match oe.operationGenerator.GenerateVolumesAreAttachedFunc attachedVolumes nodeName with
  | (_, some err) => (oe, some (.generationFailed err))
  | (volumesAreAttachedFunc, none) =>
      oe.submit EmptyUniqueVolumeName EmptyUniquePodName volumesAreAttachedFunc

/-! ### Bulk verification (`VerifyVolumesAreAttached`) -/

/-- Association-list lookup, embedding a Go map read. -/
def lookupA {α β : Type} [DecidableEq α] (k : α) : List (α × β) → Option β
  | [] => none
  | (k2, v) :: rest => if k = k2 then some v else lookupA k rest

/-- Association-list write, embedding a Go map assignment: replaces the
binding in place if the key is present, otherwise appends it. -/
def insertA {α β : Type} [DecidableEq α] (k : α) (v : β) :
    List (α × β) → List (α × β)
  | [] => [(k, v)]
  | (k2, v2) :: rest =>
      if k = k2 then (k, v) :: rest else (k2, v2) :: insertA k v rest

/-- The two accumulator maps of `VerifyVolumesAreAttached`:
`bulkVerifyPluginsByNode : map[pluginName]map[nodeName][]spec` and
`volumeSpecMapByPlugin : map[pluginName]map[spec]volumeName` (the Go map is
keyed by the spec pointer; the embedding keys by the spec value). -/
structure BulkVerifyState where
  bulkVerifyPluginsByNode : List (String × List (String × List VolumeSpec))
  volumeSpecMapByPlugin : List (String × List (VolumeSpec × UniqueVolumeName))
deriving DecidableEq, Repr

/-- One bulk-capable volume's accumulation step (source lines appending the
spec to the per-plugin per-node list and recording the spec → volume-name
mapping). -/
def addBulkVolume (st : BulkVerifyState) (pluginName : String) (node : String)
    (spec : VolumeSpec) (volumeName : UniqueVolumeName) : BulkVerifyState :=
  let pluginNodes := (lookupA pluginName st.bulkVerifyPluginsByNode).getD []
  let volumeSpecList := (lookupA node pluginNodes).getD []
  let pluginNodes2 := insertA node (volumeSpecList ++ [spec]) pluginNodes
  let volumeSpecMap := (lookupA pluginName st.volumeSpecMapByPlugin).getD []
  ⟨insertA pluginName pluginNodes2 st.bulkVerifyPluginsByNode,
    insertA pluginName (insertA spec volumeName volumeSpecMap) st.volumeSpecMapByPlugin⟩

/-- The inner loop of `VerifyVolumesAreAttached` over one node's attached
volumes: a nil spec or an unresolvable plugin is logged and skipped
(`continue`); a bulk-capable plugin's volume is accumulated; the first volume
whose plugin does not support bulk verification triggers
`VerifyVolumesAreAttachedPerNode` for the node's full volume list and breaks
out of the loop.  Returns the updated executor, the updated accumulator, and
the per-node fallback calls issued (at most one). -/
def verifyNodeVolumesLoop (oe : operationExecutor) (node : String)
    (nodeAttachedVolumes : List AttachedVolume) :
    List AttachedVolume → BulkVerifyState →
      operationExecutor × BulkVerifyState × List (String × List AttachedVolume)
  | [], st => (oe, st, [])
  | volumeAttached :: rest, st =>
    match volumeAttached.VolumeSpec with
    | none => verifyNodeVolumesLoop oe node nodeAttachedVolumes rest st
    | some spec =>
      match oe.operationGenerator.GetVolumePluginMgr.FindPluginBySpec spec with
      | none => verifyNodeVolumesLoop oe node nodeAttachedVolumes rest st
      | some volumePlugin =>
        if volumePlugin.SupportsBulkVolumeVerification then
          verifyNodeVolumesLoop oe node nodeAttachedVolumes rest
            (addBulkVolume st volumePlugin.GetPluginName node spec
              volumeAttached.VolumeName)
        else
          let r := oe.VerifyVolumesAreAttachedPerNode nodeAttachedVolumes node
          (r.1, st, [(node, nodeAttachedVolumes)])

/-- The outer loop of `VerifyVolumesAreAttached` over the node → volumes
map. -/
def verifyAllNodesLoop :
    operationExecutor → List (String × List AttachedVolume) → BulkVerifyState →
      operationExecutor × BulkVerifyState × List (String × List AttachedVolume)
  | oe, [], st => (oe, st, [])
  | oe, (node, nodeAttachedVolumes) :: rest, st =>
    let r := verifyNodeVolumesLoop oe node nodeAttachedVolumes nodeAttachedVolumes st
    let r2 := verifyAllNodesLoop r.1 rest r.2.1
    (r2.1, r2.2.1, r.2.2 ++ r2.2.2)

/-- Record of one `Run` call made by the bulk-submission loop: the plugin, the
synthetic volume name and pod name the task was keyed under, the per-node
batch handed to the generator, the (possibly nil) generated task, and the
registry's immediate result (only logged by the source). -/
structure BulkSubmission where
  pluginName : String
  uniquePluginName : UniqueVolumeName
  podName : UniquePodName
  pluginNodeVolumes : List (String × List VolumeSpec)
  task : Option Task
  runResult : Option OpError
deriving DecidableEq, Repr

/-- The second loop of `VerifyVolumesAreAttached`: for every accumulated
plugin, generate the bulk-verify task (a generation error is only logged) and
submit it — whatever it is — under the synthetic volume name equal to the
plugin name with the empty pod name. -/
def bulkVerifyLoop (volumeSpecMapByPlugin : List (String × List (VolumeSpec × UniqueVolumeName))) :
    operationExecutor → List (String × List (String × List VolumeSpec)) →
      operationExecutor × List BulkSubmission
  | oe, [] => (oe, [])
  | oe, (pluginName, pluginNodeVolumes) :: rest =>
    let gen := oe.operationGenerator.GenerateBulkVolumeVerifyFunc
      pluginNodeVolumes pluginName ((lookupA pluginName volumeSpecMapByPlugin).getD [])
    let uniquePluginName : UniqueVolumeName := pluginName
    let r := oe.submit uniquePluginName EmptyUniquePodName gen.1
    let r2 := bulkVerifyLoop volumeSpecMapByPlugin r.1 rest
    (r2.1, ⟨pluginName, uniquePluginName, EmptyUniquePodName, pluginNodeVolumes,
      gen.1, r.2⟩ :: r2.2)

/-- `VerifyVolumesAreAttached`: partition the node → attached-volume map by
plugin bulk capability (falling back per node), then submit one bulk-verify
task per accumulated plugin.  Returns the final executor together with the
accumulator and the traces of per-node fallback calls and bulk
submissions. -/
def operationExecutor.VerifyVolumesAreAttached (oe : operationExecutor)
    (attachedVolumes : List (String × List AttachedVolume)) :
    operationExecutor × BulkVerifyState ×
      List (String × List AttachedVolume) × List BulkSubmission :=
  let r := verifyAllNodesLoop oe attachedVolumes ⟨[], []⟩
  let r2 := bulkVerifyLoop r.2.1.volumeSpecMapByPlugin r.1 r.2.1.bulkVerifyPluginsByNode
  (r2.1, r.2.1, r.2.2, r2.2)

/-! ### Concrete fixtures used by witnesses and counterexamples -/

/-- A plugin supporting bulk verification. -/
def pluginA : VolumePlugin := ⟨"pluginA", true⟩

/-- A plugin not supporting bulk verification. -/
def pluginB : VolumePlugin := ⟨"pluginB", false⟩

/-- A plugin manager resolving `specA*` to the bulk-capable plugin, `specB*`
to the non-bulk plugin, and failing on everything else. -/
def mgrEx : VolumePluginMgr :=
  ⟨fun spec =>
    if spec.Name = "specA1" || spec.Name = "specA2" then some pluginA
    else if spec.Name = "specB1" || spec.Name = "specB2" then some pluginB
    else none⟩

/-- A generator whose every method succeeds with task `0`. -/
def genEx : OperationGenerator :=
  ⟨fun _ => (some 0, none), fun _ _ => (some 0, none), fun _ _ => (some 0, none),
    fun _ => (some 0, none), fun _ => (some 0, none), fun _ _ => (some 0, none),
    fun _ _ => (some 0, none),
    fun _ _ _ => (some 0, none), mgrEx⟩

/-- A generator like `genEx` whose bulk-verify generation fails with a nil
task. -/
def genExBulkErr : OperationGenerator :=
  ⟨fun _ => (some 0, none), fun _ _ => (some 0, none), fun _ _ => (some 0, none),
    fun _ => (some 0, none), fun _ => (some 0, none), fun _ _ => (some 0, none),
    fun _ _ => (some 0, none),
    fun _ _ _ => (none, some "bulk generation failed"), mgrEx⟩

/-- An executor with an empty registry over `genEx`. -/
def oeEx : operationExecutor := ⟨⟨[]⟩, genEx⟩

/-- An executor with an empty registry over `genExBulkErr`. -/
def oeExBulkErr : operationExecutor := ⟨⟨[]⟩, genExBulkErr⟩

/-- Bulk-capable attached volume on node 1. -/
def volA1 : AttachedVolume := ⟨"volA1", some ⟨"specA1"⟩, "node1", true, ""⟩

/-- Bulk-capable attached volume on node 2. -/
def volA2 : AttachedVolume := ⟨"volA2", some ⟨"specA2"⟩, "node2", true, ""⟩

/-- Non-bulk attached volume on node 1. -/
def volB1 : AttachedVolume := ⟨"volB1", some ⟨"specB1"⟩, "node1", false, ""⟩

/-- Non-bulk attached volume on node 2. -/
def volB2 : AttachedVolume := ⟨"volB2", some ⟨"specB2"⟩, "node2", false, ""⟩

/-- An attached volume whose plugin cannot be resolved. -/
def volX : AttachedVolume := ⟨"volX", some ⟨"specX"⟩, "node1", false, ""⟩

/-- A generator whose every method fails with a nil task. -/
def genErrEx : OperationGenerator :=
  ⟨fun _ => (none, some "genfail"), fun _ _ => (none, some "genfail"),
    fun _ _ => (none, some "genfail"), fun _ => (none, some "genfail"),
    fun _ => (none, some "genfail"), fun _ _ => (none, some "genfail"),
    fun _ _ => (none, some "genfail"),
    fun _ _ _ => (none, some "genfail"), mgrEx⟩

/-- An executor with an empty registry over the failing generator. -/
def oeGenErr : operationExecutor := ⟨⟨[]⟩, genErrEx⟩

/-- A volume-to-mount whose plugin is attachable. -/
def vtmAttachable : VolumeToMount :=
  ⟨"vol1", "pod1", none, "outer", ⟨"ns", "pod1", "uid1"⟩, true, "", "", false⟩

/-- A volume-to-mount whose plugin is not attachable. -/
def vtmNonAttachable : VolumeToMount :=
  ⟨"vol1", "pod1", none, "outer", ⟨"ns", "pod1", "uid1"⟩, false, "", "", false⟩

/-- A volume resolves, through its (non-nil) spec, to the given plugin. -/
def resolvesTo (mgr : VolumePluginMgr) (pl : VolumePlugin) (v : AttachedVolume) : Prop :=
  ∃ s, v.VolumeSpec = some s ∧ mgr.FindPluginBySpec s = some pl

/-- The accumulator effect of a run of bulk-capable volumes of one plugin on
one node (volumes with no spec are left out, matching the loop's skip). -/
def addAllBulk (pluginName node : String) (st : BulkVerifyState)
    (as : List AttachedVolume) : BulkVerifyState :=
  as.foldl (fun st v =>
    match v.VolumeSpec with
    | some s => addBulkVolume st pluginName node s v.VolumeName
    | none => st) st

/-- Structural invariant of the accumulator: plugin keys are distinct and
every accumulated plugin has at least one node with at least one volume. -/
def goodBulkState (st : BulkVerifyState) : Prop :=
  (st.bulkVerifyPluginsByNode.map Prod.fst).Nodup ∧
  ∀ e ∈ st.bulkVerifyPluginsByNode, ∃ nl ∈ e.2, nl.2 ≠ []

/-! ### Helper lemmas -/

theorem operationKeysConflict_iff (k1 k2 : OperationKey) :
    operationKeysConflict k1 k2 = true ↔
      k1.volumeName = k2.volumeName ∧ k2.volumeName ≠ EmptyUniqueVolumeName ∧
        (k1.podName = EmptyUniquePodName ∨ k2.podName = EmptyUniquePodName ∨
          k1.podName = k2.podName) := by
  simp only [operationKeysConflict, Bool.and_eq_true, Bool.or_eq_true, beq_iff_eq,
    bne_iff_ne, ne_eq, and_assoc]
  tauto

theorem operationKeysConflict_symm (k1 k2 : OperationKey) :
    operationKeysConflict k1 k2 = operationKeysConflict k2 k1 := by
  rw [Bool.eq_iff_iff, operationKeysConflict_iff, operationKeysConflict_iff]
  constructor
  · rintro ⟨h1, h2, h3⟩
    exact ⟨h1.symm, h1 ▸ h2, by tauto⟩
  · rintro ⟨h1, h2, h3⟩
    exact ⟨h1.symm, h1 ▸ h2, by tauto⟩

theorem operationKeysConflict_empty (k : OperationKey) :
    operationKeysConflict k ⟨EmptyUniqueVolumeName, EmptyUniquePodName⟩ = false := by
  simp [operationKeysConflict, EmptyUniqueVolumeName]

theorem submit_generator (oe : operationExecutor) (v : UniqueVolumeName)
    (p : UniquePodName) (t : Option Task) :
    (oe.submit v p t).1.operationGenerator = oe.operationGenerator := rfl

theorem foldl_count_nonContaining (p : String) (rs : List String) (n : Nat) :
    rs.foldl (fun count ref => if !stringContains ref p then count + 1 else count) n
      = n + rs.countP (fun ref => !stringContains ref p) := by
  induction rs generalizing n with
  | nil => simp
  | cons r rs ih =>
    rw [List.foldl_cons, ih, List.countP_cons]
    by_cases h : stringContains r p
    all_goals simp [h]
    all_goals omega

theorem lookupA_insertA_self {α β : Type} [DecidableEq α] (k : α) (v : β)
    (l : List (α × β)) : lookupA k (insertA k v l) = some v := by
  induction l with
  | nil => simp [insertA, lookupA]
  | cons e rest ih =>
    obtain ⟨k2, v2⟩ := e
    by_cases h : k = k2
    · simp [insertA, h, lookupA]
    · simp [insertA, h, lookupA, ih]

theorem insertA_insertA {α β : Type} [DecidableEq α] (k : α) (v w : β)
    (l : List (α × β)) : insertA k v (insertA k w l) = insertA k v l := by
  induction l with
  | nil => simp [insertA]
  | cons e rest ih =>
    obtain ⟨k2, v2⟩ := e
    by_cases h : k = k2
    · simp [insertA, h]
    · simp [insertA, h, ih]

theorem mem_insertA {α β : Type} [DecidableEq α] (e : α × β) (k : α) (v : β)
    (l : List (α × β)) : e ∈ insertA k v l → e = (k, v) ∨ e ∈ l := by
  induction l with
  | nil => simp [insertA]
  | cons e2 rest ih =>
    obtain ⟨k2, v2⟩ := e2
    by_cases h : k = k2
    · simp only [insertA, h, if_true, List.mem_cons]
      tauto
    · simp only [insertA, h, if_false, List.mem_cons]
      rintro (h1 | h2)
      · tauto
      · rcases ih h2 with h3 | h3 <;> tauto

theorem self_mem_insertA {α β : Type} [DecidableEq α] (k : α) (v : β)
    (l : List (α × β)) : (k, v) ∈ insertA k v l := by
  induction l with
  | nil => simp [insertA]
  | cons e rest ih =>
    obtain ⟨k2, v2⟩ := e
    by_cases h : k = k2
    · simp [insertA, h]
    · simp only [insertA, h, if_false, List.mem_cons]
      tauto

theorem mem_keys_insertA {α β : Type} [DecidableEq α] (a k : α) (v : β)
    (l : List (α × β)) :
    a ∈ (insertA k v l).map Prod.fst ↔ a = k ∨ a ∈ l.map Prod.fst := by
  induction l with
  | nil => simp [insertA]
  | cons e rest ih =>
    obtain ⟨k2, v2⟩ := e
    by_cases h : k = k2
    · subst h
      simp [insertA]
    · simp only [insertA, h, if_false, List.map_cons, List.mem_cons, ih]
      tauto

theorem keys_insertA_nodup {α β : Type} [DecidableEq α] (k : α) (v : β)
    (l : List (α × β)) (h : (l.map Prod.fst).Nodup) :
    ((insertA k v l).map Prod.fst).Nodup := by
  induction l with
  | nil => simp [insertA]
  | cons e rest ih =>
    obtain ⟨k2, v2⟩ := e
    simp only [List.map_cons, List.nodup_cons] at h
    by_cases hk : k = k2
    · subst hk
      simp only [insertA, if_true, List.map_cons, List.nodup_cons]
      exact h
    · simp only [insertA, hk, if_false, List.map_cons, List.nodup_cons]
      refine ⟨?_, ih h.2⟩
      rw [mem_keys_insertA]
      rintro (h1 | h1)
      · exact hk h1.symm
      · exact h.1 h1

theorem assoc_nodup_key_unique {α β : Type} [DecidableEq α] :
    ∀ (l : List (α × β)), (l.map Prod.fst).Nodup →
      ∀ (k : α) (a b : β), (k, a) ∈ l → (k, b) ∈ l → a = b := by
  intro l
  induction l with
  | nil => simp
  | cons e rest ih =>
    intro h k a b ha hb
    obtain ⟨k2, v2⟩ := e
    simp only [List.map_cons, List.nodup_cons] at h
    rcases List.mem_cons.mp ha with ha1 | ha1 <;>
      rcases List.mem_cons.mp hb with hb1 | hb1
    · rw [Prod.mk.injEq] at ha1 hb1
      rw [ha1.2, hb1.2]
    · exfalso
      rw [Prod.mk.injEq] at ha1
      exact h.1 (ha1.1 ▸ List.mem_map_of_mem Prod.fst hb1)
    · exfalso
      rw [Prod.mk.injEq] at hb1
      exact h.1 (hb1.1 ▸ List.mem_map_of_mem Prod.fst ha1)
    · exact ih h.2 k a b ha1 hb1

/-! ### Generator preservation and loop lemmas -/

theorem perNode_generator (oe : operationExecutor) (vols : List AttachedVolume)
    (node : String) :
    (oe.VerifyVolumesAreAttachedPerNode vols node).1.operationGenerator
      = oe.operationGenerator := by
  unfold operationExecutor.VerifyVolumesAreAttachedPerNode
  rcases hg : oe.operationGenerator.GenerateVolumesAreAttachedFunc vols node with ⟨t, e⟩
  cases e <;> rfl

theorem verifyNodeVolumesLoop_skip (oe : operationExecutor) (node : String)
    (full : List AttachedVolume) (v : AttachedVolume) (xs : List AttachedVolume)
    (st : BulkVerifyState)
    (h : v.VolumeSpec = none ∨ ∃ s, v.VolumeSpec = some s ∧
      oe.operationGenerator.GetVolumePluginMgr.FindPluginBySpec s = none) :
    verifyNodeVolumesLoop oe node full (v :: xs) st =
      verifyNodeVolumesLoop oe node full xs st := by
  rcases h with h | ⟨s, hs, hf⟩
  · simp [verifyNodeVolumesLoop, h]
  · simp [verifyNodeVolumesLoop, hs, hf]

theorem verifyNodeVolumesLoop_fallback (oe : operationExecutor) (node : String)
    (full : List AttachedVolume) (v : AttachedVolume) (pl : VolumePlugin)
    (xs : List AttachedVolume) (st : BulkVerifyState)
    (hv : resolvesTo oe.operationGenerator.GetVolumePluginMgr pl v)
    (hpl : pl.SupportsBulkVolumeVerification = false) :
    verifyNodeVolumesLoop oe node full (v :: xs) st =
      ((oe.VerifyVolumesAreAttachedPerNode full node).1, st, [(node, full)]) := by
  obtain ⟨s, hs, hf⟩ := hv
  simp [verifyNodeVolumesLoop, hs, hf, hpl]

theorem verifyNodeVolumesLoop_bulk_step (oe : operationExecutor) (node : String)
    (full : List AttachedVolume) (v : AttachedVolume) (s : VolumeSpec)
    (pl : VolumePlugin) (xs : List AttachedVolume) (st : BulkVerifyState)
    (hs : v.VolumeSpec = some s)
    (hf : oe.operationGenerator.GetVolumePluginMgr.FindPluginBySpec s = some pl)
    (hb : pl.SupportsBulkVolumeVerification = true) :
    verifyNodeVolumesLoop oe node full (v :: xs) st =
      verifyNodeVolumesLoop oe node full xs
        (addBulkVolume st pl.GetPluginName node s v.VolumeName) := by
  simp [verifyNodeVolumesLoop, hs, hf, hb]

theorem verifyNodeVolumesLoop_generator (oe : operationExecutor) (node : String)
    (full : List AttachedVolume) :
    ∀ (rest : List AttachedVolume) (st : BulkVerifyState),
      (verifyNodeVolumesLoop oe node full rest st).1.operationGenerator
        = oe.operationGenerator := by
  intro rest
  induction rest with
  | nil => intro st; rfl
  | cons v vs ih =>
    intro st
    cases hs : v.VolumeSpec with
    | none =>
      rw [verifyNodeVolumesLoop_skip oe node full v vs st (Or.inl hs)]
      exact ih st
    | some s =>
      cases hf : oe.operationGenerator.GetVolumePluginMgr.FindPluginBySpec s with
      | none =>
        rw [verifyNodeVolumesLoop_skip oe node full v vs st (Or.inr ⟨s, hs, hf⟩)]
        exact ih st
      | some pl =>
        by_cases hb : pl.SupportsBulkVolumeVerification
        · rw [verifyNodeVolumesLoop_bulk_step oe node full v s pl vs st hs hf hb]
          exact ih _
        · rw [verifyNodeVolumesLoop_fallback oe node full v pl vs st ⟨s, hs, hf⟩
            (Bool.eq_false_iff.mpr hb)]
          exact perNode_generator oe full node

theorem verifyAllNodesLoop_generator :
    ∀ (nodes : List (String × List AttachedVolume)) (oe : operationExecutor)
      (st : BulkVerifyState),
      (verifyAllNodesLoop oe nodes st).1.operationGenerator = oe.operationGenerator := by
  intro nodes
  induction nodes with
  | nil => intro oe st; rfl
  | cons e rest ih =>
    intro oe st
    obtain ⟨node, vols⟩ := e
    simp only [verifyAllNodesLoop]
    rw [ih]
    exact verifyNodeVolumesLoop_generator oe node vols vols st

theorem addAllBulk_cons (p n : String) (st : BulkVerifyState) (v : AttachedVolume)
    (as : List AttachedVolume) :
    addAllBulk p n st (v :: as) = addAllBulk p n
      (match v.VolumeSpec with
        | some s => addBulkVolume st p n s v.VolumeName
        | none => st) as := rfl

theorem verifyNodeVolumesLoop_bulk_segment (oe : operationExecutor) (node : String)
    (full : List AttachedVolume) (pl : VolumePlugin)
    (hpl : pl.SupportsBulkVolumeVerification = true) :
    ∀ (as xs : List AttachedVolume) (st : BulkVerifyState),
      (∀ v ∈ as, resolvesTo oe.operationGenerator.GetVolumePluginMgr pl v) →
      verifyNodeVolumesLoop oe node full (as ++ xs) st =
        verifyNodeVolumesLoop oe node full xs (addAllBulk pl.GetPluginName node st as) := by
  intro as
  induction as with
  | nil => intro xs st _; rfl
  | cons v as ih =>
    intro xs st ha
    obtain ⟨s, hs, hf⟩ := ha v (List.mem_cons_self v as)
    rw [List.cons_append, addAllBulk_cons, hs,
      verifyNodeVolumesLoop_bulk_step oe node full v s pl (as ++ xs) st hs hf hpl]
    exact ih xs _ (fun u hu => ha u (List.mem_cons_of_mem v hu))

theorem addBulkVolume_byNode (st : BulkVerifyState) (p n : String) (s : VolumeSpec)
    (vn : UniqueVolumeName) :
    (addBulkVolume st p n s vn).bulkVerifyPluginsByNode =
      insertA p
        (insertA n
          (((lookupA n ((lookupA p st.bulkVerifyPluginsByNode).getD [])).getD []) ++ [s])
          ((lookupA p st.bulkVerifyPluginsByNode).getD []))
        st.bulkVerifyPluginsByNode := rfl

theorem addAllBulk_byNode (p n : String) :
    ∀ (as : List AttachedVolume) (v : AttachedVolume) (st : BulkVerifyState),
      (∀ u ∈ v :: as, u.VolumeSpec.isSome = true) →
      (addAllBulk p n st (v :: as)).bulkVerifyPluginsByNode =
        insertA p
          (insertA n
            (((lookupA n ((lookupA p st.bulkVerifyPluginsByNode).getD [])).getD []) ++
              (v :: as).filterMap AttachedVolume.VolumeSpec)
            ((lookupA p st.bulkVerifyPluginsByNode).getD []))
          st.bulkVerifyPluginsByNode := by
  intro as
  induction as with
  | nil =>
    intro v st h
    obtain ⟨s, hs⟩ := Option.isSome_iff_exists.mp (h v (List.mem_cons_self v []))
    rw [addAllBulk_cons, hs]
    show (addBulkVolume st p n s v.VolumeName).bulkVerifyPluginsByNode = _
    rw [addBulkVolume_byNode]
    simp [hs]
  | cons v2 as ih =>
    intro v st h
    obtain ⟨s, hs⟩ := Option.isSome_iff_exists.mp (h v (List.mem_cons_self v (v2 :: as)))
    rw [addAllBulk_cons, hs]
    rw [ih v2 (addBulkVolume st p n s v.VolumeName)
      (fun u hu => h u (List.mem_cons_of_mem v hu))]
    rw [addBulkVolume_byNode]
    rw [lookupA_insertA_self, insertA_insertA]
    simp only [Option.getD_some, lookupA_insertA_self, insertA_insertA,
      List.filterMap_cons, hs, List.append_assoc, List.singleton_append]

theorem addBulkVolume_good (st : BulkVerifyState) (p n : String) (s : VolumeSpec)
    (vn : UniqueVolumeName) (h : goodBulkState st) :
    goodBulkState (addBulkVolume st p n s vn) := by
  obtain ⟨h1, h2⟩ := h
  constructor
  · rw [addBulkVolume_byNode]
    exact keys_insertA_nodup _ _ _ h1
  · intro e he
    rw [addBulkVolume_byNode] at he
    rcases mem_insertA e _ _ _ he with he1 | he1
    · refine ⟨(n, ((lookupA n ((lookupA p st.bulkVerifyPluginsByNode).getD
        [])).getD []) ++ [s]), ?_, by simp⟩
      rw [he1]
      exact self_mem_insertA _ _ _
    · exact h2 e he1

theorem verifyNodeVolumesLoop_good (oe : operationExecutor) (node : String)
    (full : List AttachedVolume) :
    ∀ (rest : List AttachedVolume) (st : BulkVerifyState),
      goodBulkState st →
      goodBulkState (verifyNodeVolumesLoop oe node full rest st).2.1 := by
  intro rest
  induction rest with
  | nil => intro st h; exact h
  | cons v vs ih =>
    intro st h
    cases hs : v.VolumeSpec with
    | none =>
      rw [verifyNodeVolumesLoop_skip oe node full v vs st (Or.inl hs)]
      exact ih st h
    | some s =>
      cases hf : oe.operationGenerator.GetVolumePluginMgr.FindPluginBySpec s with
      | none =>
        rw [verifyNodeVolumesLoop_skip oe node full v vs st (Or.inr ⟨s, hs, hf⟩)]
        exact ih st h
      | some pl =>
        by_cases hb : pl.SupportsBulkVolumeVerification
        · rw [verifyNodeVolumesLoop_bulk_step oe node full v s pl vs st hs hf hb]
          exact ih _ (addBulkVolume_good st _ node s v.VolumeName h)
        · rw [verifyNodeVolumesLoop_fallback oe node full v pl vs st ⟨s, hs, hf⟩
            (Bool.eq_false_iff.mpr hb)]
          exact h

theorem verifyAllNodesLoop_good :
    ∀ (nodes : List (String × List AttachedVolume)) (oe : operationExecutor)
      (st : BulkVerifyState),
      goodBulkState st → goodBulkState (verifyAllNodesLoop oe nodes st).2.1 := by
  intro nodes
  induction nodes with
  | nil => intro oe st h; exact h
  | cons e rest ih =>
    intro oe st h
    obtain ⟨node, vols⟩ := e
    simp only [verifyAllNodesLoop]
    exact ih _ _ (verifyNodeVolumesLoop_good oe node vols vols st h)

theorem bulkVerifyLoop_proj (m : List (String × List (VolumeSpec × UniqueVolumeName))) :
    ∀ (entries : List (String × List (String × List VolumeSpec)))
      (oe : operationExecutor),
      (bulkVerifyLoop m oe entries).2.map
          (fun s => (s.pluginName, s.uniquePluginName, s.podName, s.pluginNodeVolumes)) =
        entries.map (fun e => (e.1, e.1, EmptyUniquePodName, e.2)) := by
  intro entries
  induction entries with
  | nil => intro oe; rfl
  | cons e rest ih =>
    intro oe
    obtain ⟨pn, pnv⟩ := e
    simp only [bulkVerifyLoop, List.map_cons, ih]

theorem bulkVerifyLoop_mem (m : List (String × List (VolumeSpec × UniqueVolumeName))) :
    ∀ (entries : List (String × List (String × List VolumeSpec)))
      (oe : operationExecutor) (s : BulkSubmission),
      s ∈ (bulkVerifyLoop m oe entries).2 →
      ∃ e ∈ entries, s.pluginName = e.1 ∧ s.uniquePluginName = e.1 ∧
        s.podName = EmptyUniquePodName ∧ s.pluginNodeVolumes = e.2 ∧
        s.task = (oe.operationGenerator.GenerateBulkVolumeVerifyFunc e.2 e.1
          ((lookupA e.1 m).getD [])).1 := by
  intro entries
  induction entries with
  | nil =>
    intro oe s h
    simp [bulkVerifyLoop] at h
  | cons e rest ih =>
    intro oe s h
    obtain ⟨pn, pnv⟩ := e
    simp only [bulkVerifyLoop, List.mem_cons] at h
    rcases h with h | h
    · subst h
      exact ⟨(pn, pnv), List.mem_cons_self (pn, pnv) rest, rfl, rfl, rfl, rfl, rfl⟩
    · obtain ⟨e2, he2, h1, h2, h3, h4, h5⟩ := ih _ s h
      exact ⟨e2, List.mem_cons_of_mem _ he2, h1, h2, h3, h4, h5⟩

/-! ### Claim theorems -/

/-- C9: `hasMountRefs p rs` returns true if and only if at least one element
of `rs` does not contain `p` as a substring; in particular
`hasMountRefs "/mnt/pod123" ["/mnt/pod123/sub", "/mnt/other"] = true` and
`hasMountRefs "/mnt/pod123" ["/mnt/pod123/sub"] = false`. -/
theorem hasMountRefs_characterization :
    (∀ (p : String) (rs : List String),
      hasMountRefs p rs = true ↔ ∃ r ∈ rs, stringContains r p = false)
    ∧ hasMountRefs "/mnt/pod123" ["/mnt/pod123/sub", "/mnt/other"] = true
    ∧ hasMountRefs "/mnt/pod123" ["/mnt/pod123/sub"] = false := by
  refine ⟨?_, by decide, by decide⟩
  intro p rs
  simp only [hasMountRefs, foldl_count_nonContaining, Nat.zero_add, gt_iff_lt,
    decide_eq_true_eq]
  rw [List.countP_pos_iff]
  simp

/-- C9 witness: the characterization instantiated at the spec's example,
deriving the concrete value through the general equivalence. -/
theorem hasMountRefs_characterization_witness :
    hasMountRefs "/mnt/pod123" ["/mnt/pod123/sub", "/mnt/other"] = true :=
  (hasMountRefs_characterization.1 "/mnt/pod123"
      ["/mnt/pod123/sub", "/mnt/other"]).mpr ⟨"/mnt/other", by decide, by decide⟩

/-- C1: a `Run` call whose key conflicts with an already-running operation
(same genuine, i.e. non-empty, VolumeIdentifier, and either PodIdentifier
empty or both equal) is rejected immediately with
`OperationAlreadyExistsError` and leaves the registry unchanged; a call with
no conflicting running operation is accepted immediately and recorded as
running; and an accepted `Run` preserves the invariant that at most one
running operation exists per key (no two running entries conflict). -/
theorem run_rejects_conflicting_and_preserves_exclusion
    (grm : NestedPendingOperations) (v : UniqueVolumeName) (p : UniquePodName)
    (t : Option Task) (hv : v ≠ EmptyUniqueVolumeName) :
    ((∃ op ∈ grm.operations, op.running = true ∧ op.key.volumeName = v ∧
        (op.key.podName = EmptyUniquePodName ∨ p = EmptyUniquePodName ∨
          op.key.podName = p)) →
      grm.Run v p t = (grm, some (.operationAlreadyExists v p)))
    ∧ ((∀ op ∈ grm.operations, op.running = true → op.key.volumeName = v →
          op.key.podName ≠ EmptyUniquePodName ∧ p ≠ EmptyUniquePodName ∧
            op.key.podName ≠ p) →
        (grm.Run v p t).2 = none ∧
          (grm.Run v p t).1.operations = ⟨⟨v, p⟩, true, t⟩ :: grm.operations)
    ∧ (mutualExclusionInv grm → mutualExclusionInv (grm.Run v p t).1) := by
  refine ⟨?_, ?_, ?_⟩
  · rintro ⟨op, hmem, hrun, hvol, hpods⟩
    have hc : grm.operations.any (fun op =>
        op.running && operationKeysConflict op.key ⟨v, p⟩) = true := by
      rw [List.any_eq_true]
      refine ⟨op, hmem, ?_⟩
      rw [Bool.and_eq_true, hrun]
      exact ⟨rfl, (operationKeysConflict_iff op.key ⟨v, p⟩).mpr ⟨hvol, hv, hpods⟩⟩
    simp [NestedPendingOperations.Run, hc]
  · intro hnone
    have hc : grm.operations.any (fun op =>
        op.running && operationKeysConflict op.key ⟨v, p⟩) = false := by
      rw [List.any_eq_false]
      intro op hmem
      rw [Bool.and_eq_true, not_and]
      intro hrun hconf
      obtain ⟨hvol, _, hpods⟩ := (operationKeysConflict_iff op.key ⟨v, p⟩).mp hconf
      obtain ⟨h1, h2, h3⟩ := hnone op hmem hrun hvol
      tauto
    simp [NestedPendingOperations.Run, hc]
  · intro hinv
    by_cases hc : grm.operations.any (fun op =>
        op.running && operationKeysConflict op.key ⟨v, p⟩) = true
    · simp [NestedPendingOperations.Run, hc, hinv]
    · rw [Bool.not_eq_true] at hc
      simp only [NestedPendingOperations.Run, hc, Bool.false_eq_true, if_false,
        mutualExclusionInv, List.pairwise_cons]
      rw [List.any_eq_false] at hc
      refine ⟨?_, hinv⟩
      intro op hmem _ hrun
      have := hc op hmem
      rw [Bool.and_eq_true, not_and, hrun] at this
      have hfalse : operationKeysConflict op.key ⟨v, p⟩ = false := by
        rw [Bool.eq_false_iff]
        intro hco
        exact (this rfl) hco
      rw [operationKeysConflict_symm] at hfalse
      exact hfalse

/-- C1 witness: a registry with a running operation under `("vol1", "")`
rejects a `Run` under `("vol1", "pod1")` immediately. -/
theorem run_rejects_conflicting_witness :
    NestedPendingOperations.Run ⟨[⟨⟨"vol1", ""⟩, true, some 0⟩]⟩ "vol1" "pod1" (some 1)
      = (⟨[⟨⟨"vol1", ""⟩, true, some 0⟩]⟩,
          some (.operationAlreadyExists "vol1" "pod1")) :=
  (run_rejects_conflicting_and_preserves_exclusion
      ⟨[⟨⟨"vol1", ""⟩, true, some 0⟩]⟩ "vol1" "pod1" (some 1) (by decide)).1
    ⟨⟨⟨"vol1", ""⟩, true, some 0⟩, by simp, rfl, rfl, Or.inl rfl⟩

/-- C7: `VerifyVolumesAreAttachedPerNode` submits its task under the key
`("", "")`; because the empty VolumeIdentifier never conflicts, the
submission is accepted no matter what operations are already running, so any
number of per-node verifications can be pending concurrently. -/
theorem perNode_verification_bypasses_conflicts (oe : operationExecutor)
    (attachedVolumes : List AttachedVolume) (nodeName : String) (t : Option Task)
    (hgen : oe.operationGenerator.GenerateVolumesAreAttachedFunc attachedVolumes
      nodeName = (t, none)) :
    oe.VerifyVolumesAreAttachedPerNode attachedVolumes nodeName =
      (⟨⟨⟨⟨EmptyUniqueVolumeName, EmptyUniquePodName⟩, true, t⟩ ::
          oe.pendingOperations.operations⟩, oe.operationGenerator⟩, none) := by
  unfold operationExecutor.VerifyVolumesAreAttachedPerNode
  rw [hgen]
  simp only [operationExecutor.submit, NestedPendingOperations.Run,
    operationKeysConflict_empty, Bool.and_false, List.any_eq_true]
  simp

/-- C7 witness: even with an identically-keyed `("", "")` operation already
running, a per-node verification is accepted. -/
theorem perNode_verification_bypasses_conflicts_witness :
    operationExecutor.VerifyVolumesAreAttachedPerNode
        ⟨⟨[⟨⟨"", ""⟩, true, some 0⟩]⟩, genEx⟩ [] "node1" =
      (⟨⟨[⟨⟨"", ""⟩, true, some 0⟩, ⟨⟨"", ""⟩, true, some 0⟩]⟩, genEx⟩, none) :=
  perNode_verification_bypasses_conflicts
    ⟨⟨[⟨⟨"", ""⟩, true, some 0⟩]⟩, genEx⟩ [] "node1" (some 0) rfl

/-- C3: `AttachVolume`, `DetachVolume`, `UnmountDevice` and
`VerifyControllerAttachedVolume` submit their generated task under the key
(operation's VolumeName, empty pod identifier), while `UnmountVolume` submits
under (VolumeName, pod identifier derived from `volumeToUnmount.PodUID`). -/
theorem verb_fixed_operation_keys :
    (∀ (oe : operationExecutor) (vta : VolumeToAttach) (t : Option Task),
      oe.operationGenerator.GenerateAttachVolumeFunc vta = (t, none) →
      oe.AttachVolume vta = oe.submit vta.VolumeName EmptyUniquePodName t)
    ∧ (∀ (oe : operationExecutor) (vtd : AttachedVolume) (b : Bool) (t : Option Task),
      oe.operationGenerator.GenerateDetachVolumeFunc vtd b = (t, none) →
      oe.DetachVolume vtd b = oe.submit vtd.VolumeName EmptyUniquePodName t)
    ∧ (∀ (oe : operationExecutor) (dev : AttachedVolume) (t : Option Task),
      oe.operationGenerator.GenerateUnmountDeviceFunc dev = (t, none) →
      oe.UnmountDevice dev = oe.submit dev.VolumeName EmptyUniquePodName t)
    ∧ (∀ (oe : operationExecutor) (vtm : VolumeToMount) (node : String) (t : Option Task),
      oe.operationGenerator.GenerateVerifyControllerAttachedVolumeFunc vtm node
        = (t, none) →
      oe.VerifyControllerAttachedVolume vtm node =
        oe.submit vtm.VolumeName EmptyUniquePodName t)
    ∧ (∀ (oe : operationExecutor) (mv : MountedVolume) (t : Option Task),
      oe.operationGenerator.GenerateUnmountVolumeFunc mv = (t, none) →
      oe.UnmountVolume mv = oe.submit mv.VolumeName mv.PodUID t) := by
  refine ⟨?_, ?_, ?_, ?_, ?_⟩
  · intro oe vta t h
    unfold operationExecutor.AttachVolume
    rw [h]
  · intro oe vtd b t h
    unfold operationExecutor.DetachVolume
    rw [h]
  · intro oe dev t h
    unfold operationExecutor.UnmountDevice
    rw [h]
  · intro oe vtm node t h
    unfold operationExecutor.VerifyControllerAttachedVolume
    rw [h]
  · intro oe mv t h
    unfold operationExecutor.UnmountVolume
    rw [h]

/-- C3 witness: the five keyed submissions at concrete inputs. -/
theorem verb_fixed_operation_keys_witness :
    (operationExecutor.AttachVolume oeEx ⟨"vol1", none, "node1", []⟩ =
      operationExecutor.submit oeEx "vol1" EmptyUniquePodName (some 0))
    ∧ (operationExecutor.DetachVolume oeEx volA1 true =
      operationExecutor.submit oeEx "volA1" EmptyUniquePodName (some 0))
    ∧ (operationExecutor.UnmountDevice oeEx volA1 =
      operationExecutor.submit oeEx "volA1" EmptyUniquePodName (some 0))
    ∧ (operationExecutor.VerifyControllerAttachedVolume oeEx vtmAttachable "node1" =
      operationExecutor.submit oeEx "vol1" EmptyUniquePodName (some 0))
    ∧ (operationExecutor.UnmountVolume oeEx
        ⟨"pod1", "vol1", "inner", "outer", "plug", "uid1", ""⟩ =
      operationExecutor.submit oeEx "vol1" "uid1" (some 0)) :=
  ⟨verb_fixed_operation_keys.1 oeEx ⟨"vol1", none, "node1", []⟩ (some 0) rfl,
    verb_fixed_operation_keys.2.1 oeEx volA1 true (some 0) rfl,
    verb_fixed_operation_keys.2.2.1 oeEx volA1 (some 0) rfl,
    verb_fixed_operation_keys.2.2.2.1 oeEx vtmAttachable "node1" (some 0) rfl,
    verb_fixed_operation_keys.2.2.2.2 oeEx
      ⟨"pod1", "vol1", "inner", "outer", "plug", "uid1", ""⟩ (some 0) rfl⟩

/-- C2: `MountVolume` submits under (VolumeName, empty pod identifier) when
the plugin is attachable and under (VolumeName, unique pod name of the pod)
when it is not; consequently, for a genuine (non-empty) volume identifier and
two distinct pods (distinct, non-empty unique pod names), the two mount keys
conflict exactly when the plugin is attachable. -/
theorem mountVolume_key_selection :
    (∀ (oe : operationExecutor) (w : Nat) (vtm : VolumeToMount) (t : Option Task),
      oe.operationGenerator.GenerateMountVolumeFunc w vtm = (t, none) →
      oe.MountVolume w vtm =
        oe.submit vtm.VolumeName
          (if vtm.PluginIsAttachable then EmptyUniquePodName
            else GetUniquePodName vtm.Pod) t)
    ∧ (∀ (v : UniqueVolumeName) (b : Bool) (pod1 pod2 : Pod),
        v ≠ EmptyUniqueVolumeName →
        GetUniquePodName pod1 ≠ GetUniquePodName pod2 →
        GetUniquePodName pod1 ≠ EmptyUniquePodName →
        GetUniquePodName pod2 ≠ EmptyUniquePodName →
        operationKeysConflict
          ⟨v, if b then EmptyUniquePodName else GetUniquePodName pod1⟩
          ⟨v, if b then EmptyUniquePodName else GetUniquePodName pod2⟩ = b) := by
  constructor
  · intro oe w vtm t h
    unfold operationExecutor.MountVolume
    rw [h]
    cases hb : vtm.PluginIsAttachable <;> simp [hb]
  · intro v b pod1 pod2 hv hne h1 h2
    cases b
    · simp only [if_false, Bool.false_eq_true]
      rw [Bool.eq_false_iff]
      intro hconf
      obtain ⟨_, _, hp⟩ := (operationKeysConflict_iff _ _).mp hconf
      tauto
    · simp only [if_true]
      exact (operationKeysConflict_iff _ _).mpr ⟨rfl, hv, Or.inl rfl⟩

/-- C2 witness: the attachable and non-attachable keyings at concrete inputs,
and the conflict outcomes for two distinct pods. -/
theorem mountVolume_key_selection_witness :
    (operationExecutor.MountVolume oeEx 5 vtmAttachable =
      operationExecutor.submit oeEx "vol1" EmptyUniquePodName (some 0))
    ∧ (operationExecutor.MountVolume oeEx 5 vtmNonAttachable =
      operationExecutor.submit oeEx "vol1" "uid1" (some 0))
    ∧ operationKeysConflict ⟨"vol1", EmptyUniquePodName⟩
        ⟨"vol1", EmptyUniquePodName⟩ = true
    ∧ operationKeysConflict ⟨"vol1", GetUniquePodName ⟨"ns", "p1", "uid1"⟩⟩
        ⟨"vol1", GetUniquePodName ⟨"ns", "p2", "uid2"⟩⟩ = false :=
  ⟨mountVolume_key_selection.1 oeEx 5 vtmAttachable (some 0) rfl,
    mountVolume_key_selection.1 oeEx 5 vtmNonAttachable (some 0) rfl,
    mountVolume_key_selection.2 "vol1" true ⟨"ns", "p1", "uid1"⟩ ⟨"ns", "p2", "uid2"⟩
      (by decide) (by decide) (by decide) (by decide),
    mountVolume_key_selection.2 "vol1" false ⟨"ns", "p1", "uid1"⟩ ⟨"ns", "p2", "uid2"⟩
      (by decide) (by decide) (by decide) (by decide)⟩

/-- C8: for each verb of the executor, a task-generation error is returned
synchronously as-is and nothing is submitted (the executor is unchanged);
otherwise the call's return value is exactly the registry's immediate
accept/reject result of submitting the generated task under the verb's key.
The spawned task is never executed by the call, so its eventual outcome
cannot affect the return value. -/
theorem verb_error_propagation :
    (∀ (oe : operationExecutor) (vta : VolumeToAttach) (t : Option Task) (e : GenError),
      oe.operationGenerator.GenerateAttachVolumeFunc vta = (t, some e) →
      oe.AttachVolume vta = (oe, some (.generationFailed e)))
    ∧ (∀ (oe : operationExecutor) (vta : VolumeToAttach) (t : Option Task),
      oe.operationGenerator.GenerateAttachVolumeFunc vta = (t, none) →
      oe.AttachVolume vta = oe.submit vta.VolumeName EmptyUniquePodName t)
    ∧ (∀ (oe : operationExecutor) (vtd : AttachedVolume) (b : Bool) (t : Option Task)
        (e : GenError),
      oe.operationGenerator.GenerateDetachVolumeFunc vtd b = (t, some e) →
      oe.DetachVolume vtd b = (oe, some (.generationFailed e)))
    ∧ (∀ (oe : operationExecutor) (vtd : AttachedVolume) (b : Bool) (t : Option Task),
      oe.operationGenerator.GenerateDetachVolumeFunc vtd b = (t, none) →
      oe.DetachVolume vtd b = oe.submit vtd.VolumeName EmptyUniquePodName t)
    ∧ (∀ (oe : operationExecutor) (w : Nat) (vtm : VolumeToMount) (t : Option Task)
        (e : GenError),
      oe.operationGenerator.GenerateMountVolumeFunc w vtm = (t, some e) →
      oe.MountVolume w vtm = (oe, some (.generationFailed e)))
    ∧ (∀ (oe : operationExecutor) (w : Nat) (vtm : VolumeToMount) (t : Option Task),
      oe.operationGenerator.GenerateMountVolumeFunc w vtm = (t, none) →
      oe.MountVolume w vtm =
        oe.submit vtm.VolumeName
          (if !vtm.PluginIsAttachable then GetUniquePodName vtm.Pod
            else EmptyUniquePodName) t)
    ∧ (∀ (oe : operationExecutor) (mv : MountedVolume) (t : Option Task) (e : GenError),
      oe.operationGenerator.GenerateUnmountVolumeFunc mv = (t, some e) →
      oe.UnmountVolume mv = (oe, some (.generationFailed e)))
    ∧ (∀ (oe : operationExecutor) (mv : MountedVolume) (t : Option Task),
      oe.operationGenerator.GenerateUnmountVolumeFunc mv = (t, none) →
      oe.UnmountVolume mv = oe.submit mv.VolumeName mv.PodUID t)
    ∧ (∀ (oe : operationExecutor) (dev : AttachedVolume) (t : Option Task) (e : GenError),
      oe.operationGenerator.GenerateUnmountDeviceFunc dev = (t, some e) →
      oe.UnmountDevice dev = (oe, some (.generationFailed e)))
    ∧ (∀ (oe : operationExecutor) (dev : AttachedVolume) (t : Option Task),
      oe.operationGenerator.GenerateUnmountDeviceFunc dev = (t, none) →
      oe.UnmountDevice dev = oe.submit dev.VolumeName EmptyUniquePodName t)
    ∧ (∀ (oe : operationExecutor) (vtm : VolumeToMount) (node : String)
        (t : Option Task) (e : GenError),
      oe.operationGenerator.GenerateVerifyControllerAttachedVolumeFunc vtm node
        = (t, some e) →
      oe.VerifyControllerAttachedVolume vtm node = (oe, some (.generationFailed e)))
    ∧ (∀ (oe : operationExecutor) (vtm : VolumeToMount) (node : String) (t : Option Task),
      oe.operationGenerator.GenerateVerifyControllerAttachedVolumeFunc vtm node
        = (t, none) →
      oe.VerifyControllerAttachedVolume vtm node =
        oe.submit vtm.VolumeName EmptyUniquePodName t) := by
  refine ⟨?_, ?_, ?_, ?_, ?_, ?_, ?_, ?_, ?_, ?_, ?_, ?_⟩
  · intro oe vta t e h
    unfold operationExecutor.AttachVolume
    rw [h]
  · intro oe vta t h
    unfold operationExecutor.AttachVolume
    rw [h]
  · intro oe vtd b t e h
    unfold operationExecutor.DetachVolume
    rw [h]
  · intro oe vtd b t h
    unfold operationExecutor.DetachVolume
    rw [h]
  · intro oe w vtm t e h
    unfold operationExecutor.MountVolume
    rw [h]
  · intro oe w vtm t h
    unfold operationExecutor.MountVolume
    rw [h]
  · intro oe mv t e h
    unfold operationExecutor.UnmountVolume
    rw [h]
  · intro oe mv t h
    unfold operationExecutor.UnmountVolume
    rw [h]
  · intro oe dev t e h
    unfold operationExecutor.UnmountDevice
    rw [h]
  · intro oe dev t h
    unfold operationExecutor.UnmountDevice
    rw [h]
  · intro oe vtm node t e h
    unfold operationExecutor.VerifyControllerAttachedVolume
    rw [h]
  · intro oe vtm node t h
    unfold operationExecutor.VerifyControllerAttachedVolume
    rw [h]

/-- C8 witness: a failing generator's error is returned with the executor
unchanged, and a succeeding generator's call returns the registry result. -/
theorem verb_error_propagation_witness :
    (operationExecutor.AttachVolume oeGenErr ⟨"vol1", none, "node1", []⟩ =
      (oeGenErr, some (.generationFailed "genfail")))
    ∧ (operationExecutor.MountVolume oeGenErr 5 vtmAttachable =
      (oeGenErr, some (.generationFailed "genfail")))
    ∧ (operationExecutor.AttachVolume oeEx ⟨"vol1", none, "node1", []⟩ =
      operationExecutor.submit oeEx "vol1" EmptyUniquePodName (some 0)) :=
  ⟨verb_error_propagation.1 oeGenErr ⟨"vol1", none, "node1", []⟩ none "genfail" rfl,
    verb_error_propagation.2.2.2.2.1 oeGenErr 5 vtmAttachable none "genfail" rfl,
    verb_error_propagation.2.1 oeEx ⟨"vol1", none, "node1", []⟩ (some 0) rfl⟩

/-- C6: after partitioning, `VerifyVolumesAreAttached` submits exactly one
bulk-verify task per accumulated plugin, keyed by a synthetic volume
identifier equal to the plugin's name with the empty pod identifier; plugin
keys are distinct, and every accumulated plugin holds at least one volume. -/
theorem bulk_submission_per_accumulated_plugin (oe : operationExecutor)
    (attachedVolumes : List (String × List AttachedVolume)) :
    ((oe.VerifyVolumesAreAttached attachedVolumes).2.2.2.map
        (fun s => (s.pluginName, s.uniquePluginName, s.podName, s.pluginNodeVolumes))) =
      ((oe.VerifyVolumesAreAttached attachedVolumes).2.1.bulkVerifyPluginsByNode.map
        (fun e => (e.1, e.1, EmptyUniquePodName, e.2)))
    ∧ (((oe.VerifyVolumesAreAttached attachedVolumes).2.1.bulkVerifyPluginsByNode.map
        Prod.fst).Nodup)
    ∧ ∀ e ∈ (oe.VerifyVolumesAreAttached attachedVolumes).2.1.bulkVerifyPluginsByNode,
        ∃ nl ∈ e.2, nl.2 ≠ [] := by
  have hgood : goodBulkState (verifyAllNodesLoop oe attachedVolumes ⟨[], []⟩).2.1 :=
    verifyAllNodesLoop_good attachedVolumes oe ⟨[], []⟩ ⟨List.nodup_nil, by simp⟩
  exact ⟨bulkVerifyLoop_proj _ _ _, hgood.1, hgood.2⟩

/-- C6 witness: a single bulk-capable volume yields exactly the one
submission for its plugin under the synthetic key, and the accumulated
plugin's batch is non-empty. -/
theorem bulk_submission_per_accumulated_plugin_witness :
    ("pluginA", [("node1", [VolumeSpec.mk "specA1"])]) ∈
      (oeEx.VerifyVolumesAreAttached
        [("node1", [volA1])]).2.1.bulkVerifyPluginsByNode
    ∧ ∃ nl ∈ [("node1", [VolumeSpec.mk "specA1"])], nl.2 ≠ ([] : List VolumeSpec) :=
  ⟨by decide,
    (bulk_submission_per_accumulated_plugin oeEx [("node1", [volA1])]).2.2
      ("pluginA", [("node1", [VolumeSpec.mk "specA1"])]) (by decide)⟩

/-- C10: for a plugin that accumulated a non-empty bulk batch, exactly one
`Run` call is made under that plugin's key even when the bulk task generation
returned an error: the error is only logged, and the possibly-nil generated
task is still submitted. -/
theorem bulk_gen_error_still_submitted (oe : operationExecutor)
    (attachedVolumes : List (String × List AttachedVolume))
    (p : String) (pnv : List (String × List VolumeSpec)) (t : Option Task)
    (e : GenError)
    (hmem : (p, pnv) ∈
      (oe.VerifyVolumesAreAttached attachedVolumes).2.1.bulkVerifyPluginsByNode)
    (hgen : oe.operationGenerator.GenerateBulkVolumeVerifyFunc pnv p
        ((lookupA p (oe.VerifyVolumesAreAttached
          attachedVolumes).2.1.volumeSpecMapByPlugin).getD [])
      = (t, some e)) :
    ((oe.VerifyVolumesAreAttached attachedVolumes).2.2.2.countP
        (fun s => s.pluginName == p)) = 1
    ∧ ∀ s ∈ (oe.VerifyVolumesAreAttached attachedVolumes).2.2.2,
        s.pluginName = p →
          s.uniquePluginName = p ∧ s.podName = EmptyUniquePodName ∧ s.task = t := by
  have hgood : goodBulkState (verifyAllNodesLoop oe attachedVolumes ⟨[], []⟩).2.1 :=
    verifyAllNodesLoop_good attachedVolumes oe ⟨[], []⟩ ⟨List.nodup_nil, by simp⟩
  have hproj := bulkVerifyLoop_proj
    (verifyAllNodesLoop oe attachedVolumes ⟨[], []⟩).2.1.volumeSpecMapByPlugin
    (verifyAllNodesLoop oe attachedVolumes ⟨[], []⟩).2.1.bulkVerifyPluginsByNode
    (verifyAllNodesLoop oe attachedVolumes ⟨[], []⟩).1
  constructor
  · have h1 : (oe.VerifyVolumesAreAttached attachedVolumes).2.2.2.map
        (fun s => s.pluginName) =
        (oe.VerifyVolumesAreAttached
          attachedVolumes).2.1.bulkVerifyPluginsByNode.map Prod.fst := by
      have h2 := congrArg
        (List.map (fun x : String × String × String ×
          List (String × List VolumeSpec) => x.1)) hproj
      simpa [List.map_map, Function.comp] using h2
    have h3 : ((oe.VerifyVolumesAreAttached attachedVolumes).2.2.2.map
        (fun s => s.pluginName)).countP (fun a => a == p) =
        (oe.VerifyVolumesAreAttached attachedVolumes).2.2.2.countP
          (fun s => s.pluginName == p) := List.countP_map _ _ _
    rw [← h3, h1]
    have hp : p ∈ (oe.VerifyVolumesAreAttached
        attachedVolumes).2.1.bulkVerifyPluginsByNode.map Prod.fst :=
      List.mem_map_of_mem Prod.fst hmem
    exact List.count_eq_one_of_mem hgood.1 hp
  · intro s hs hp
    obtain ⟨e2, he2, h1, h2, h3, h4, h5⟩ := bulkVerifyLoop_mem
      (verifyAllNodesLoop oe attachedVolumes ⟨[], []⟩).2.1.volumeSpecMapByPlugin
      (verifyAllNodesLoop oe attachedVolumes ⟨[], []⟩).2.1.bulkVerifyPluginsByNode
      (verifyAllNodesLoop oe attachedVolumes ⟨[], []⟩).1 s hs
    have hkey : e2.1 = p := h1 ▸ hp
    have he2p : (p, e2.2) ∈ (oe.VerifyVolumesAreAttached
        attachedVolumes).2.1.bulkVerifyPluginsByNode := by
      have : e2 = (p, e2.2) := by
        rw [← hkey]
      exact this ▸ he2
    have hsame : e2.2 = pnv :=
      assoc_nodup_key_unique _ hgood.1 p e2.2 pnv he2p hmem
    refine ⟨h2.trans hkey, h3, ?_⟩
    rw [h5, verifyAllNodesLoop_generator, hkey, hsame]
    exact congrArg Prod.fst hgen

/-- C10 witness: with a bulk generator that fails (returning a nil task), the
single accumulated plugin still gets exactly one submission, carrying the nil
task under the plugin's key. -/
theorem bulk_gen_error_still_submitted_witness :
    ((oeExBulkErr.VerifyVolumesAreAttached [("node1", [volA1])]).2.2.2.countP
      (fun s => s.pluginName == "pluginA")) = 1
    ∧ ∀ s ∈ (oeExBulkErr.VerifyVolumesAreAttached [("node1", [volA1])]).2.2.2,
        s.pluginName = "pluginA" →
          s.uniquePluginName = "pluginA" ∧ s.podName = EmptyUniquePodName ∧
            s.task = none :=
  bulk_gen_error_still_submitted oeExBulkErr [("node1", [volA1])] "pluginA"
    [("node1", [VolumeSpec.mk "specA1"])] none "bulk generation failed"
    (by decide) rfl

/-- C5 counterexample: volume `volX` (spec "specX") cannot be resolved by the
plugin manager, yet `VerifyVolumesAreAttached` issues no per-node fallback
call for its node and submits nothing — the volume is skipped with the error
logged, contradicting the claim that an unresolvable plugin causes an
immediate fall back to `VerifyVolumesAreAttachedPerNode` for that node. -/
theorem unresolved_plugin_no_fallback_cex :
    mgrEx.FindPluginBySpec ⟨"specX"⟩ = none
    ∧ (oeEx.VerifyVolumesAreAttached [("node1", [volX])]).2.2.1 = []
    ∧ (oeEx.VerifyVolumesAreAttached
        [("node1", [volX])]).1.pendingOperations.operations = [] :=
  ⟨rfl, rfl, rfl⟩

/-- C5 (amended): a volume whose resolvable plugin does not support bulk
verification causes an immediate per-node fallback via
`VerifyVolumesAreAttachedPerNode` with the node's full volume list, after
which the node's loop stops; a volume whose plugin cannot be resolved (or
whose spec is nil) is only logged and skipped — processing continues with the
node's remaining volumes and no fallback is triggered by it. -/
theorem nonbulk_fallback_and_unresolved_skip :
    (∀ (oe : operationExecutor) (node : String) (full : List AttachedVolume)
      (v : AttachedVolume) (pl : VolumePlugin) (xs : List AttachedVolume)
      (st : BulkVerifyState),
      resolvesTo oe.operationGenerator.GetVolumePluginMgr pl v →
      pl.SupportsBulkVolumeVerification = false →
      verifyNodeVolumesLoop oe node full (v :: xs) st =
        ((oe.VerifyVolumesAreAttachedPerNode full node).1, st, [(node, full)]))
    ∧ (∀ (oe : operationExecutor) (node : String) (full : List AttachedVolume)
      (v : AttachedVolume) (xs : List AttachedVolume) (st : BulkVerifyState),
      (v.VolumeSpec = none ∨ ∃ s, v.VolumeSpec = some s ∧
        oe.operationGenerator.GetVolumePluginMgr.FindPluginBySpec s = none) →
      verifyNodeVolumesLoop oe node full (v :: xs) st =
        verifyNodeVolumesLoop oe node full xs st) :=
  ⟨fun oe node full v pl xs st hv hpl =>
    verifyNodeVolumesLoop_fallback oe node full v pl xs st hv hpl,
    fun oe node full v xs st h => verifyNodeVolumesLoop_skip oe node full v xs st h⟩

/-- C5 witness: the non-bulk `volB1` triggers the fallback with the node's
full list, and the unresolvable `volX` is skipped while processing continues
with the remaining volume. -/
theorem nonbulk_fallback_and_unresolved_skip_witness :
    (verifyNodeVolumesLoop oeEx "node1" [volB1] [volB1] ⟨[], []⟩ =
      ((oeEx.VerifyVolumesAreAttachedPerNode [volB1] "node1").1, ⟨[], []⟩,
        [("node1", [volB1])]))
    ∧ (verifyNodeVolumesLoop oeEx "node1" [volX, volA1] [volX, volA1] ⟨[], []⟩ =
      verifyNodeVolumesLoop oeEx "node1" [volX, volA1] [volA1] ⟨[], []⟩) :=
  ⟨nonbulk_fallback_and_unresolved_skip.1 oeEx "node1" [volB1] volB1 pluginB []
      ⟨[], []⟩ ⟨⟨"specB1"⟩, rfl, rfl⟩ rfl,
    nonbulk_fallback_and_unresolved_skip.2 oeEx "node1" [volX, volA1] volX [volA1]
      ⟨[], []⟩ (Or.inr ⟨⟨"specX"⟩, rfl, rfl⟩)⟩

/-- C4 counterexample: with node1's list ordered [volB1, volA1] (non-bulk
volume first), the bulk batch for pluginA covers only node2: the bulk-capable
volA1 (spec "specA1", resolving to the bulk-capable pluginA) is absent
because the node loop broke at volB1, so the single bulk submission does not
cover plugin A's volumes on both nodes and the outcome depends on the
iteration order. -/
theorem bulk_batch_order_dependence_cex :
    (oeEx.VerifyVolumesAreAttached
        [("node1", [volB1, volA1]),
         ("node2", [volA2, volB2])]).2.1.bulkVerifyPluginsByNode
      = [("pluginA", [("node2", [⟨"specA2"⟩])])]
    ∧ mgrEx.FindPluginBySpec ⟨"specA1"⟩ = some pluginA
    ∧ pluginA.SupportsBulkVolumeVerification = true
    ∧ volA1.VolumeSpec = some ⟨"specA1"⟩ :=
  ⟨rfl, rfl, rfl, rfl⟩

/-- C4 (amended): for two distinct nodes whose lists place all bulk-capable
plugin-A volumes before the non-bulk plugin-B volumes, with at least one
volume of each plugin on each node, exactly one bulk-verify task is submitted
for plugin A, its batch covers plugin A's volumes on both nodes, and the
per-node fallback is invoked exactly once per node with the node's full
volume list.  (The order restriction is forced by the node loop's break: a
bulk-capable volume after the first non-bulk volume of its node is dropped
from the batch.) -/
theorem verify_bulk_two_node_partition (oe : operationExecutor)
    (plA plB : VolumePlugin)
    (hA : plA.SupportsBulkVolumeVerification = true)
    (hB : plB.SupportsBulkVolumeVerification = false)
    (n1 n2 : String) (hn : n1 ≠ n2)
    (a1 b1 a2 b2 : List AttachedVolume)
    (ha1 : ∀ v ∈ a1, resolvesTo oe.operationGenerator.GetVolumePluginMgr plA v)
    (ha2 : ∀ v ∈ a2, resolvesTo oe.operationGenerator.GetVolumePluginMgr plA v)
    (hb1 : ∀ v ∈ b1, resolvesTo oe.operationGenerator.GetVolumePluginMgr plB v)
    (hb2 : ∀ v ∈ b2, resolvesTo oe.operationGenerator.GetVolumePluginMgr plB v)
    (ha1ne : a1 ≠ []) (ha2ne : a2 ≠ []) (hb1ne : b1 ≠ []) (hb2ne : b2 ≠ []) :
    (oe.VerifyVolumesAreAttached
        [(n1, a1 ++ b1), (n2, a2 ++ b2)]).2.1.bulkVerifyPluginsByNode =
      [(plA.GetPluginName,
        [(n1, a1.filterMap AttachedVolume.VolumeSpec),
          (n2, a2.filterMap AttachedVolume.VolumeSpec)])]
    ∧ (oe.VerifyVolumesAreAttached [(n1, a1 ++ b1), (n2, a2 ++ b2)]).2.2.1 =
        [(n1, a1 ++ b1), (n2, a2 ++ b2)]
    ∧ (oe.VerifyVolumesAreAttached [(n1, a1 ++ b1), (n2, a2 ++ b2)]).2.2.2.map
        (fun s => (s.pluginName, s.uniquePluginName, s.podName,
          s.pluginNodeVolumes)) =
      [(plA.GetPluginName, plA.GetPluginName, EmptyUniquePodName,
        [(n1, a1.filterMap AttachedVolume.VolumeSpec),
          (n2, a2.filterMap AttachedVolume.VolumeSpec)])] := by
  obtain ⟨va1, a1t, rfl⟩ := List.exists_cons_of_ne_nil ha1ne
  obtain ⟨va2, a2t, rfl⟩ := List.exists_cons_of_ne_nil ha2ne
  obtain ⟨vb1, b1t, rfl⟩ := List.exists_cons_of_ne_nil hb1ne
  obtain ⟨vb2, b2t, rfl⟩ := List.exists_cons_of_ne_nil hb2ne
  have hnode1 : verifyNodeVolumesLoop oe n1 ((va1 :: a1t) ++ vb1 :: b1t)
      ((va1 :: a1t) ++ vb1 :: b1t) ⟨[], []⟩ =
      ((oe.VerifyVolumesAreAttachedPerNode ((va1 :: a1t) ++ vb1 :: b1t) n1).1,
        addAllBulk plA.GetPluginName n1 ⟨[], []⟩ (va1 :: a1t),
        [(n1, (va1 :: a1t) ++ vb1 :: b1t)]) := by
    rw [verifyNodeVolumesLoop_bulk_segment oe n1 _ plA hA (va1 :: a1t)
      (vb1 :: b1t) ⟨[], []⟩ ha1]
    exact verifyNodeVolumesLoop_fallback oe n1 _ vb1 plB b1t _
      (hb1 vb1 (List.mem_cons_self vb1 b1t)) hB
  have hoe1 : (oe.VerifyVolumesAreAttachedPerNode ((va1 :: a1t) ++ vb1 :: b1t)
      n1).1.operationGenerator = oe.operationGenerator :=
    perNode_generator oe _ n1
  have ha2g : ∀ v ∈ va2 :: a2t,
      resolvesTo (oe.VerifyVolumesAreAttachedPerNode ((va1 :: a1t) ++ vb1 :: b1t)
        n1).1.operationGenerator.GetVolumePluginMgr plA v := by
    rw [hoe1]
    exact ha2
  have hb2g : ∀ v ∈ vb2 :: b2t,
      resolvesTo (oe.VerifyVolumesAreAttachedPerNode ((va1 :: a1t) ++ vb1 :: b1t)
        n1).1.operationGenerator.GetVolumePluginMgr plB v := by
    rw [hoe1]
    exact hb2
  have hnode2 : verifyNodeVolumesLoop
      (oe.VerifyVolumesAreAttachedPerNode ((va1 :: a1t) ++ vb1 :: b1t) n1).1
      n2 ((va2 :: a2t) ++ vb2 :: b2t) ((va2 :: a2t) ++ vb2 :: b2t)
      (addAllBulk plA.GetPluginName n1 ⟨[], []⟩ (va1 :: a1t)) =
      (((oe.VerifyVolumesAreAttachedPerNode ((va1 :: a1t) ++ vb1 :: b1t)
          n1).1.VerifyVolumesAreAttachedPerNode ((va2 :: a2t) ++ vb2 :: b2t) n2).1,
        addAllBulk plA.GetPluginName n2
          (addAllBulk plA.GetPluginName n1 ⟨[], []⟩ (va1 :: a1t)) (va2 :: a2t),
        [(n2, (va2 :: a2t) ++ vb2 :: b2t)]) := by
    rw [verifyNodeVolumesLoop_bulk_segment _ n2 _ plA hA (va2 :: a2t)
      (vb2 :: b2t) _ ha2g]
    exact verifyNodeVolumesLoop_fallback _ n2 _ vb2 plB b2t _
      (hb2g vb2 (List.mem_cons_self vb2 b2t)) hB
  have hsome1 : ∀ u ∈ va1 :: a1t, u.VolumeSpec.isSome = true := by
    intro u hu
    obtain ⟨s, hs, _⟩ := ha1 u hu
    rw [hs]
    rfl
  have hsome2 : ∀ u ∈ va2 :: a2t, u.VolumeSpec.isSome = true := by
    intro u hu
    obtain ⟨s, hs, _⟩ := ha2 u hu
    rw [hs]
    rfl
  have hst1 : (addAllBulk plA.GetPluginName n1 ⟨[], []⟩
      (va1 :: a1t)).bulkVerifyPluginsByNode =
      [(plA.GetPluginName, [(n1, (va1 :: a1t).filterMap AttachedVolume.VolumeSpec)])] := by
    rw [addAllBulk_byNode plA.GetPluginName n1 a1t va1 ⟨[], []⟩ hsome1]
    simp [lookupA, insertA]
  have hst2 : (addAllBulk plA.GetPluginName n2
      (addAllBulk plA.GetPluginName n1 ⟨[], []⟩ (va1 :: a1t))
      (va2 :: a2t)).bulkVerifyPluginsByNode =
      [(plA.GetPluginName,
        [(n1, (va1 :: a1t).filterMap AttachedVolume.VolumeSpec),
          (n2, (va2 :: a2t).filterMap AttachedVolume.VolumeSpec)])] := by
    rw [addAllBulk_byNode plA.GetPluginName n2 a2t va2 _ hsome2, hst1]
    have hne : ¬(n2 = n1) := fun hcon => hn hcon.symm
    simp [lookupA, insertA, hne]
  have hall : verifyAllNodesLoop oe
      [(n1, (va1 :: a1t) ++ vb1 :: b1t), (n2, (va2 :: a2t) ++ vb2 :: b2t)]
      ⟨[], []⟩ =
      (((oe.VerifyVolumesAreAttachedPerNode ((va1 :: a1t) ++ vb1 :: b1t)
          n1).1.VerifyVolumesAreAttachedPerNode ((va2 :: a2t) ++ vb2 :: b2t) n2).1,
        addAllBulk plA.GetPluginName n2
          (addAllBulk plA.GetPluginName n1 ⟨[], []⟩ (va1 :: a1t)) (va2 :: a2t),
        [(n1, (va1 :: a1t) ++ vb1 :: b1t), (n2, (va2 :: a2t) ++ vb2 :: b2t)]) := by
    simp only [verifyAllNodesLoop, hnode1, hnode2]
    rfl
  refine ⟨?_, ?_, ?_⟩
  · show (verifyAllNodesLoop oe
      [(n1, (va1 :: a1t) ++ vb1 :: b1t), (n2, (va2 :: a2t) ++ vb2 :: b2t)]
      ⟨[], []⟩).2.1.bulkVerifyPluginsByNode = _
    rw [hall]
    exact hst2
  · show (verifyAllNodesLoop oe
      [(n1, (va1 :: a1t) ++ vb1 :: b1t), (n2, (va2 :: a2t) ++ vb2 :: b2t)]
      ⟨[], []⟩).2.2 = _
    rw [hall]
  · show (bulkVerifyLoop _ _ _).2.map _ = _
    rw [bulkVerifyLoop_proj]
    have hbn : (verifyAllNodesLoop oe
        [(n1, (va1 :: a1t) ++ vb1 :: b1t), (n2, (va2 :: a2t) ++ vb2 :: b2t)]
        ⟨[], []⟩).2.1.bulkVerifyPluginsByNode =
        [(plA.GetPluginName,
          [(n1, (va1 :: a1t).filterMap AttachedVolume.VolumeSpec),
            (n2, (va2 :: a2t).filterMap AttachedVolume.VolumeSpec)])] := by
      rw [hall]
      exact hst2
    rw [hbn]
    rfl

/-- C4 witness: the amended two-node partition at a concrete input where each
node lists its bulk-capable volume before its non-bulk one. -/
theorem verify_bulk_two_node_partition_witness :
    (oeEx.VerifyVolumesAreAttached
        [("node1", [volA1, volB1]),
         ("node2", [volA2, volB2])]).2.1.bulkVerifyPluginsByNode =
      [("pluginA", [("node1", [⟨"specA1"⟩]), ("node2", [⟨"specA2"⟩])])]
    ∧ (oeEx.VerifyVolumesAreAttached
        [("node1", [volA1, volB1]), ("node2", [volA2, volB2])]).2.2.1 =
      [("node1", [volA1, volB1]), ("node2", [volA2, volB2])]
    ∧ (oeEx.VerifyVolumesAreAttached
        [("node1", [volA1, volB1]), ("node2", [volA2, volB2])]).2.2.2.map
        (fun s => (s.pluginName, s.uniquePluginName, s.podName,
          s.pluginNodeVolumes)) =
      [("pluginA", "pluginA", EmptyUniquePodName,
        [("node1", [⟨"specA1"⟩]), ("node2", [⟨"specA2"⟩])])] :=
  verify_bulk_two_node_partition oeEx pluginA pluginB rfl rfl "node1" "node2"
    (by decide) [volA1] [volB1] [volA2] [volB2]
    (fun v hv => by
      rw [List.mem_singleton] at hv
      exact hv ▸ ⟨⟨"specA1"⟩, rfl, rfl⟩)
    (fun v hv => by
      rw [List.mem_singleton] at hv
      exact hv ▸ ⟨⟨"specA2"⟩, rfl, rfl⟩)
    (fun v hv => by
      rw [List.mem_singleton] at hv
      exact hv ▸ ⟨⟨"specB1"⟩, rfl, rfl⟩)
    (fun v hv => by
      rw [List.mem_singleton] at hv
      exact hv ▸ ⟨⟨"specB2"⟩, rfl, rfl⟩)
    (by decide) (by decide) (by decide) (by decide)

end OperationExecutorModel
